import Mathlib

/-!
Verification of the `integer_search` TCP lookup service
(`big_int_search.py`, `tcp_server.py`) against its specification.

The embedding models:
* Python `str.strip` / `str.lower` / `str.split(",")` / `int(str)` on the
  ASCII fragment the protocol uses (payloads are `<integer>,<flag>` text);
* `SetSearch.load_data`, `SetSearch.decode_user_input`,
  `SetSearch.search_data_reread_on`, `SetSearch.search_data_reread_off`
  (`big_int_search.py` lines 40-139);
* the per-connection request loop of `TCPServer.handle_client`
  (`tcp_server.py` lines 105-145), with the filesystem supplied as
  `Option (List String)` (`none` = the configured data file is missing,
  `some lines` = its lines) and the shared class attribute
  `SetSearch.data_store` threaded explicitly as `Option (Finset Int)`;
* a two-session interleaving model of concurrent `search_data_reread_on`
  calls sharing `SetSearch.data_store`.

Exceptions are modelled with `Except`: Python `ValueError` is split into
the spec's taxonomy (format / value-parse / dataset-parse), `TypeError`
and `FileNotFoundError` are separate constructors, and the session
handler catches exactly the classes the `except` clauses at
`tcp_server.py` lines 133-141 catch.
-/

/-- Whitespace characters removed by Python `str.strip()` (restricted to
the ASCII/C0 range used by the protocol; in particular `'\x00'` is NOT
whitespace and is NOT stripped). -/
def isPyWhitespace (c : Char) : Bool :=
  [' ', '\t', '\n', '\r', '\x0b', '\x0c', '\x1c', '\x1d', '\x1e', '\x1f'].contains c

/-- Python `str.strip()` on a character list: drop leading and trailing
whitespace. -/
def pyStripList (l : List Char) : List Char :=
  ((l.dropWhile isPyWhitespace).reverse.dropWhile isPyWhitespace).reverse

/-- Python `str.strip()` on strings. -/
def pyStrip (s : String) : String :=
  String.mk (pyStripList s.data)

/-- Digit run of a Python decimal integer literal, after the first digit:
further digits, with single underscores allowed between digits
(`int("1_2") = 12`, `int("1_") `/` int("1__2")` fail). -/
def pyDigitsRest (acc : Nat) : List Char → Option Nat
  | [] => some acc
  | ['_'] => none
  | '_' :: c :: rest =>
    if c.isDigit then pyDigitsRest (acc * 10 + (c.toNat - 48)) rest else none
  | c :: rest =>
    if c.isDigit then pyDigitsRest (acc * 10 + (c.toNat - 48)) rest else none

/-- Digit run of a Python decimal integer literal: must begin with a digit. -/
def pyDigitsStart : List Char → Option Nat
  | [] => none
  | c :: rest => if c.isDigit then pyDigitsRest (c.toNat - 48) rest else none

/-- Signed Python decimal integer literal (no surrounding whitespace). -/
def pyIntOfChars : List Char → Option Int
  | '+' :: rest => (pyDigitsStart rest).map (fun n => (n : Int))
  | '-' :: rest => (pyDigitsStart rest).map (fun n => -(n : Int))
  | l => (pyDigitsStart l).map (fun n => (n : Int))

/-- Python `int(s)` on text: `int` itself ignores surrounding whitespace,
then parses an optionally signed, arbitrary-precision decimal literal
(ASCII digits). Returns `none` where Python raises `ValueError`. -/
def pyIntChars (l : List Char) : Option Int :=
  pyIntOfChars (pyStripList l)

/-- Python `s.split(",")`: split on every comma, keeping empty fields
(`"".split(",") = [""]`). -/
def splitOnComma : List Char → List (List Char)
  | [] => [[]]
  | c :: rest =>
    let r := splitOnComma rest
    if c = ',' then [] :: r
    else
      match r with
      | h :: t => (c :: h) :: t
      | [] => [[c]]

/-- Python `str.lower()` on one character (ASCII range). -/
def pyLowerChar (c : Char) : Char :=
  if c.toNat ≥ 65 ∧ c.toNat ≤ 90 then Char.ofNat (c.toNat + 32) else c

/-- Python `str.lower()` (ASCII range). -/
def pyLower (s : String) : String :=
  String.mk (s.data.map pyLowerChar)

/-- Error taxonomy of the service, refining the Python exception classes:
`formatError` and `valueParseError` are the two `ValueError` cases of
`decode_user_input` (bad field count / non-integer first field; the spec's
FormatError and ValueParseError), `parseError` is the `ValueError` raised
by `int` inside `load_data` (the spec's ParseError), `fileAccessError` is
`FileNotFoundError` from `open` (the spec's FileAccessError), `typeError`
is Python `TypeError` (membership test on `None`). -/
inductive SearchError where
  | formatError
  | valueParseError
  | parseError
  | fileAccessError
  | typeError
deriving DecidableEq

instance {ε α : Type} [DecidableEq ε] [DecidableEq α] : DecidableEq (Except ε α) := fun x y =>
  match x, y with
  | .ok a, .ok b =>
    if h : a = b then .isTrue (by rw [h]) else .isFalse (fun hh => h (Except.ok.inj hh))
  | .error a, .error b =>
    if h : a = b then .isTrue (by rw [h]) else .isFalse (fun hh => h (Except.error.inj hh))
  | .ok _, .error _ => .isFalse (fun hh => Except.noConfusion hh)
  | .error _, .ok _ => .isFalse (fun hh => Except.noConfusion hh)

/-- Which of the model's errors are Python `ValueError`s (caught by the
`except ValueError` clause at `tcp_server.py` line 138). -/
def isValueError : SearchError → Bool
  | .formatError => true
  | .valueParseError => true
  | .parseError => true
  | _ => false

/-- Result of `SetSearch.decode_user_input`: the dict
`{"query_input": int, "reread_mode": str}`. -/
structure DecodedInput where
  query_input : Int
  reread_mode : String
deriving DecidableEq

/-- `SetSearch.decode_user_input` (`big_int_search.py` lines 63-92):
split the decoded payload on commas, require exactly two fields
(else `ValueError`, the spec's FormatError), parse field 1 with
`int(field.strip())` (failure is the spec's ValueParseError), and return
the parsed integer together with the stripped second field. -/
def decode_user_input (data : String) : Except SearchError DecodedInput :=
  match splitOnComma data.data with
  | [a, b] =>
    match pyIntChars (pyStripList a) with
    | some n => .ok ⟨n, String.mk (pyStripList b)⟩
    | none => .error .valueParseError
  | _ => .error .formatError

/-- One line of the data file as `load_data` parses it:
`int(line.strip().replace(";", ""))` — strip surrounding whitespace, then
remove every semicolon (Python `replace` replaces all occurrences), then
parse as an integer. -/
def parseLine (l : String) : Option Int :=
  pyIntChars ((pyStripList l.data).filter (fun c => c != ';'))

/-- The set comprehension of `load_data` over the file's lines
(`big_int_search.py` lines 57-61): skip blank lines (falsy after
`strip()`), parse every other line with `parseLine`; a line that fails to
parse raises `ValueError` (the spec's ParseError). -/
def loadLines : List String → Except SearchError (Finset Int)
  | [] => .ok ∅
  | l :: rest =>
    if pyStripList l.data = [] then loadLines rest
    else
      match parseLine l with
      | none => .error .parseError
      | some n =>
        match loadLines rest with
        | .ok s => .ok (insert n s)
        | .error e => .error e

/-- `SetSearch.load_data` (`big_int_search.py` lines 40-61) over the
modelled filesystem: `none` means `open(data_file)` raises
`FileNotFoundError` (the spec's FileAccessError); otherwise the file's
lines are parsed by `loadLines`. -/
def load_data : Option (List String) → Except SearchError (Finset Int)
  | none => .error .fileAccessError
  | some lines => loadLines lines

/-- Python truthiness of `SetSearch.data_store`: `None` and the empty set
are falsy, a non-empty set is truthy. -/
def pyTruthy : Option (Finset Int) → Bool
  | none => false
  | some s => decide (s ≠ ∅)

/-- Python `q in store` on the shared handle: membership on a set, a
`TypeError` when the handle is still `None`. -/
def pyMem (q : Int) : Option (Finset Int) → Except SearchError Bool
  | none => .error .typeError
  | some s => .ok (decide (q ∈ s))

/-- `SetSearch.search_data_reread_off` (`big_int_search.py` lines
116-139): decode the input again, then
`if SetSearch.data_store and query_input in SetSearch.data_store:` —
Python `and` short-circuits, so the membership test only runs when the
store is truthy (non-`None` and non-empty). -/
def search_data_reread_off (input : String) (store : Option (Finset Int)) :
    Except SearchError String :=
  match decode_user_input input with
  | .error e => .error e
  | .ok d =>
    match (if pyTruthy store then pyMem d.query_input store else .ok false) with
    | .error e => .error e
    | .ok b =>
      .ok (if b then "STRING EXISTS\n READ_ON_QUERY=False"
           else "STRING NOT FOUND\n READ_ON_QUERY=False")

/-- `SetSearch.search_data_reread_on` (`big_int_search.py` lines 94-114):
decode the input again, reload the dataset (line 109 assigns it to the
shared class attribute), then test membership through the shared
attribute, which in this sequential model is the set just stored. The
result pairs the response with the new shared store. The concurrent
behaviour of lines 109-111 is modelled separately by `raceStep` below. -/
def search_data_reread_on (input : String) (fs : Option (List String)) :
    Except SearchError (String × Option (Finset Int)) :=
  match decode_user_input input with
  | .error e => .error e
  | .ok d =>
    match load_data fs with
    | .error e => .error e
    | .ok s =>
      match pyMem d.query_input (some s) with
      | .error e => .error e
      | .ok b =>
        .ok (if b then "STRING EXISTS\n READ_ON_QUERY=True"
             else "STRING NOT FOUND\n READ_ON_QUERY=True", some s)

/-- The reread-off branch of `handle_client` (line 125): the shared store
is left unchanged. -/
def runRereadOff (input : String) (store : Option (Finset Int)) :
    Except SearchError (String × Option (Finset Int)) :=
  match search_data_reread_off input store with
  | .ok r => .ok (r, store)
  | .error e => .error e

/-- One iteration of the request loop of `TCPServer.handle_client`
(`tcp_server.py` lines 112-127): the tuple unpacking at line 112 raises
`ValueError` unless the payload splits into exactly two fields, then the
payload is decoded by `decode_user_input` (line 118) and dispatched to
reread-on exactly when `re_read_mode.lower() == "true"` (line 122). -/
def processRequest (fs : Option (List String)) (store : Option (Finset Int))
    (data : String) : Except SearchError (String × Option (Finset Int)) :=
  match splitOnComma data.data with
  | [_, _] =>
    match decode_user_input data with
    | .error e => .error e
    | .ok d =>
      if pyLower d.reread_mode = "true" then search_data_reread_on data fs
      else runRereadOff data store
  | _ => .error .formatError

/-- The request loop of `TCPServer.handle_client` (`tcp_server.py` lines
105-145) over the list of payloads received on one connection. Returns
the responses sent and the final shared store. The `except` clauses sit
OUTSIDE the `while` loop: a `TypeError` answers with the no-data
diagnostic and the `finally` closes the socket; a `ValueError` (any of
the three ValueError-class model errors) answers with the input
diagnostic and closes; a `FileNotFoundError` is uncaught (no response)
and the `finally` still closes. In every error case the remaining
payloads are never processed. -/
def handle_client (fs : Option (List String)) (store : Option (Finset Int)) :
    List String → List String × Option (Finset Int)
  | [] => ([], store)
  | data :: rest =>
    match processRequest fs store data with
    | .ok (resp, store2) =>
      let r := handle_client fs store2 rest
      (resp :: r.1, r.2)
    | .error .typeError =>
      (["Please switch to READ_ON_QUERY=True, no data found in memory"], store)
    | .error .formatError => (["The search input must be a number or integer"], store)
    | .error .valueParseError => (["The search input must be a number or integer"], store)
    | .error .parseError => (["The search input must be a number or integer"], store)
    | .error .fileAccessError => ([], store)

/-- An integer appears as a standalone entry of the reference file: some
non-blank line, under the loader's normalization (whitespace stripped,
semicolons removed), parses to exactly that integer. -/
def appearsAsStandaloneLine (q : Int) (lines : List String) : Prop :=
  ∃ l ∈ lines, pyStripList l.data ≠ [] ∧ parseLine l = some q

/-- Whether `needle` occurs as a contiguous substring of `hay`. -/
def listContains (needle : List Char) : List Char → Bool
  | [] => needle.isEmpty
  | c :: rest => needle.isPrefixOf (c :: rest) || listContains needle rest

/-- Last character of a string (a response ends with a newline iff this
is `some` newline). -/
def lastChar (s : String) : Option Char :=
  s.data.getLast?

/-- Modelled from the spec's words, for comparison with the source's
`replace(";", "")`: remove decorative TRAILING separator characters
(semicolons) only, as §4.1 of the spec describes the Dataset Loader. -/
def stripTrailingSeparators (l : List Char) : List Char :=
  (l.reverse.dropWhile (fun c => c == ';')).reverse

/-- Modelled from the spec's words, for comparison with the code's
behaviour: an integer "appears as a standalone / whole line" of the
reference file when some non-blank line, after stripping surrounding
whitespace and removing only decorative TRAILING separators (§3/§4.1),
is exactly that integer. This is the notion the original C4 claim
quantifies over; the code's loader diverges from it on lines with
interior semicolons. -/
def appearsAsWholeLine (q : Int) (lines : List String) : Prop :=
  ∃ l ∈ lines, pyStripList l.data ≠ [] ∧
    pyIntChars (stripTrailingSeparators (pyStripList l.data)) = some q

/-- Shared-state interleaving model of `search_data_reread_on`
(`big_int_search.py` lines 108-111) for two concurrent sessions A and B.
Each session performs two steps touching the shared class attribute
`SetSearch.data_store`: publish (line 109 assigns its freshly loaded set)
and test (line 111 evaluates `query_input in SetSearch.data_store`,
reading the attribute AGAIN). `pcA`/`pcB` are the sessions' program
counters (0 = before publish, 1 = published, 2 = answered); `ansA`/`ansB`
are the membership answers. -/
structure RaceState where
  store : Option (Finset Int)
  pcA : Nat
  pcB : Nat
  ansA : Option Bool
  ansB : Option Bool
deriving DecidableEq

/-- A scheduler move: which session executes its next shared-state step. -/
inductive Move where
  | pubA
  | testA
  | pubB
  | testB
deriving DecidableEq

/-- One interleaving step: session A (loading `SA`, querying `qA`) and
session B (loading `SB`, querying `qB`) each publish into the shared
store and then test membership through the shared store as it stands at
that moment. Disabled moves leave the state unchanged. -/
def raceStep (SA SB : Finset Int) (qA qB : Int) (s : RaceState) : Move → RaceState
  | .pubA => if s.pcA = 0 then { s with store := some SA, pcA := 1 } else s
  | .testA =>
    if s.pcA = 1 then
      match s.store with
      | some T => { s with ansA := some (decide (qA ∈ T)), pcA := 2 }
      | none => s
    else s
  | .pubB => if s.pcB = 0 then { s with store := some SB, pcB := 1 } else s
  | .testB =>
    if s.pcB = 1 then
      match s.store with
      | some T => { s with ansB := some (decide (qB ∈ T)), pcB := 2 }
      | none => s
    else s

/-- Run a whole interleaving (list of scheduler moves). -/
def raceRun (SA SB : Finset Int) (qA qB : Int) (moves : List Move)
    (s : RaceState) : RaceState :=
  moves.foldl (raceStep SA SB qA qB) s

/-- Process start: the shared handle has never been populated and neither
session has run. -/
def raceInit : RaceState :=
  ⟨none, 0, 0, none, none⟩

/-- Invariant of the interleaving model: the shared store only ever holds
a fully-built published set, and every recorded answer is a membership
test against one of the two published sets. -/
def raceInv (SA SB : Finset Int) (qA qB : Int) (s : RaceState) : Prop :=
  (s.store = none ∨ s.store = some SA ∨ s.store = some SB) ∧
  (∀ b, s.ansA = some b → b = decide (qA ∈ SA) ∨ b = decide (qA ∈ SB)) ∧
  (∀ b, s.ansB = some b → b = decide (qB ∈ SA) ∨ b = decide (qB ∈ SB))

/-- A successful decode implies the payload split into exactly two
comma-separated fields. -/
theorem decode_ok_split {data : String} {d : DecodedInput}
    (h : decode_user_input data = .ok d) :
    ∃ a b, splitOnComma data.data = [a, b] := by
  unfold decode_user_input at h
  split at h
  · rename_i a b hsp
    exact ⟨a, b, hsp⟩
  · exact Except.noConfusion h

/-- A reread-off lookup against a never-populated store answers NOT FOUND:
`None` is falsy, so the `and` at line 136 short-circuits. -/
theorem search_off_none {input : String} {d : DecodedInput}
    (hd : decode_user_input input = .ok d) :
    search_data_reread_off input none = .ok "STRING NOT FOUND\n READ_ON_QUERY=False" := by
  unfold search_data_reread_off
  rw [hd]
  rfl

/-- A reread-off lookup against a loaded store answers by plain set
membership (the empty set is falsy, but membership in it is false anyway). -/
theorem search_off_some {input : String} {d : DecodedInput} (S : Finset Int)
    (hd : decode_user_input input = .ok d) :
    search_data_reread_off input (some S) =
      .ok (if d.query_input ∈ S then "STRING EXISTS\n READ_ON_QUERY=False"
           else "STRING NOT FOUND\n READ_ON_QUERY=False") := by
  unfold search_data_reread_off
  rw [hd]
  by_cases hS : S = ∅
  · subst hS
    simp [pyTruthy]
  · simp [pyTruthy, pyMem, hS]

/-- After a successful decode, `handle_client`'s dispatch reduces to the
line-122 test `re_read_mode.lower() == "true"`. -/
theorem processRequest_eq {fs : Option (List String)} {store : Option (Finset Int)}
    {input : String} {d : DecodedInput} (hd : decode_user_input input = .ok d) :
    processRequest fs store input =
      if pyLower d.reread_mode = "true" then search_data_reread_on input fs
      else runRereadOff input store := by
  obtain ⟨a, b, hsp⟩ := decode_ok_split hd
  unfold processRequest
  rw [hsp, hd]

/-- Unfolding membership of an integer in the loaded set: it is exactly
"some non-blank line parses to that integer". -/
theorem appears_cons {q : Int} {l : String} {rest : List String} :
    appearsAsStandaloneLine q (l :: rest) ↔
      (pyStripList l.data ≠ [] ∧ parseLine l = some q) ∨ appearsAsStandaloneLine q rest := by
  unfold appearsAsStandaloneLine
  constructor
  · rintro ⟨x, hx, hne, hp⟩
    rcases List.mem_cons.mp hx with rfl | hx
    · exact Or.inl ⟨hne, hp⟩
    · exact Or.inr ⟨x, hx, hne, hp⟩
  · rintro (⟨hne, hp⟩ | ⟨x, hx, hne, hp⟩)
    · exact ⟨l, List.mem_cons_self l rest, hne, hp⟩
    · exact ⟨x, List.mem_cons_of_mem l hx, hne, hp⟩

/-- Membership in a successfully loaded set characterized line by line. -/
theorem mem_loadLines :
    ∀ (lines : List String) (S : Finset Int), loadLines lines = .ok S →
      ∀ q : Int, q ∈ S ↔ appearsAsStandaloneLine q lines := by
  intro lines
  induction lines with
  | nil =>
    intro S h q
    obtain rfl : (∅ : Finset Int) = S := Except.ok.inj h
    simp [appearsAsStandaloneLine]
  | cons l rest ih =>
    intro S h q
    unfold loadLines at h
    by_cases hb : pyStripList l.data = []
    · rw [if_pos hb] at h
      rw [ih S h q, appears_cons]
      simp [hb]
    · rw [if_neg hb] at h
      cases hp : parseLine l with
      | none => rw [hp] at h; exact Except.noConfusion h
      | some n =>
        rw [hp] at h
        cases hr : loadLines rest with
        | error e => rw [hr] at h; exact Except.noConfusion h
        | ok s =>
          rw [hr] at h
          obtain rfl : insert n s = S := Except.ok.inj h
          rw [Finset.mem_insert, appears_cons, ih s hr q, hp]
          simp [hb, eq_comm]

/-- The loader fails with a ParseError whenever some non-blank line does
not parse. -/
theorem loadLines_error {lines : List String}
    (h : ∃ l ∈ lines, pyStripList l.data ≠ [] ∧ parseLine l = none) :
    loadLines lines = .error .parseError := by
  induction lines with
  | nil => simp at h
  | cons l rest ih =>
    unfold loadLines
    rcases h with ⟨x, hx, hne, hp⟩
    rcases List.mem_cons.mp hx with rfl | hx
    · rw [if_neg hne, hp]
    · by_cases hb : pyStripList l.data = []
      · rw [if_pos hb]
        exact ih ⟨x, hx, hne, hp⟩
      · rw [if_neg hb]
        cases hpl : parseLine l with
        | none => rfl
        | some n => rw [ih ⟨x, hx, hne, hp⟩]

/-- The loader succeeds whenever every non-blank line parses. -/
theorem loadLines_ok {lines : List String}
    (h : ∀ l ∈ lines, pyStripList l.data ≠ [] → parseLine l ≠ none) :
    ∃ S, loadLines lines = .ok S := by
  induction lines with
  | nil => exact ⟨∅, rfl⟩
  | cons l rest ih =>
    obtain ⟨S, hS⟩ := ih (fun x hx => h x (List.mem_cons_of_mem _ hx))
    unfold loadLines
    by_cases hb : pyStripList l.data = []
    · rw [if_pos hb]
      exact ⟨S, hS⟩
    · rw [if_neg hb]
      cases hpl : parseLine l with
      | none => exact absurd hpl (h l (List.mem_cons_self _ _) hb)
      | some n =>
        rw [hS]
        exact ⟨insert n S, rfl⟩

/-- Any successful reread-on response is one of the two `True`-mode
literals. -/
theorem search_on_ok_shape {input : String} {fs : Option (List String)}
    {r : String} {st : Option (Finset Int)}
    (h : search_data_reread_on input fs = .ok (r, st)) :
    r = "STRING EXISTS\n READ_ON_QUERY=True" ∨ r = "STRING NOT FOUND\n READ_ON_QUERY=True" := by
  unfold search_data_reread_on at h
  split at h
  · exact Except.noConfusion h
  · split at h
    · exact Except.noConfusion h
    · split at h
      · exact Except.noConfusion h
      · rename_i b hb
        have h2 := Except.ok.inj h
        cases b
        · injection h2 with h1 _
          exact Or.inr h1.symm
        · injection h2 with h1 _
          exact Or.inl h1.symm

/-- Any successful reread-off response is one of the two `False`-mode
literals. -/
theorem search_off_ok_shape {input : String} {store : Option (Finset Int)}
    {r : String} (h : search_data_reread_off input store = .ok r) :
    r = "STRING EXISTS\n READ_ON_QUERY=False" ∨ r = "STRING NOT FOUND\n READ_ON_QUERY=False" := by
  unfold search_data_reread_off at h
  split at h
  · exact Except.noConfusion h
  · split at h
    · exact Except.noConfusion h
    · rename_i b hb
      have h1 := Except.ok.inj h
      cases b
      · exact Or.inr h1.symm
      · exact Or.inl h1.symm

/-- Each interleaving step preserves the race invariant. -/
theorem raceStep_inv {SA SB : Finset Int} {qA qB : Int} {s : RaceState}
    (h : raceInv SA SB qA qB s) (m : Move) :
    raceInv SA SB qA qB (raceStep SA SB qA qB s m) := by
  cases m
  case pubA =>
    unfold raceStep
    by_cases hpc : s.pcA = 0
    · rw [if_pos hpc]
      exact ⟨Or.inr (Or.inl rfl), fun b hb => h.2.1 b hb, fun b hb => h.2.2 b hb⟩
    · rw [if_neg hpc]
      exact h
  case pubB =>
    unfold raceStep
    by_cases hpc : s.pcB = 0
    · rw [if_pos hpc]
      exact ⟨Or.inr (Or.inr rfl), fun b hb => h.2.1 b hb, fun b hb => h.2.2 b hb⟩
    · rw [if_neg hpc]
      exact h
  case testA =>
    simp only [raceStep]
    by_cases hpc : s.pcA = 1
    · rw [if_pos hpc]
      cases hs : s.store with
      | none => exact h
      | some T =>
        have h1 := h.1
        rw [hs] at h1
        refine ⟨h1, ?_, fun b hb => h.2.2 b hb⟩
        intro b hb
        have hbT : b = decide (qA ∈ T) := (Option.some.inj hb).symm
        rcases h1 with h2 | h2 | h2
        · exact absurd h2 (by simp)
        · left
          rw [hbT, Option.some.inj h2]
        · right
          rw [hbT, Option.some.inj h2]
    · rw [if_neg hpc]
      exact h
  case testB =>
    simp only [raceStep]
    by_cases hpc : s.pcB = 1
    · rw [if_pos hpc]
      cases hs : s.store with
      | none => exact h
      | some T =>
        have h1 := h.1
        rw [hs] at h1
        refine ⟨h1, fun b hb => h.2.1 b hb, ?_⟩
        intro b hb
        have hbT : b = decide (qB ∈ T) := (Option.some.inj hb).symm
        rcases h1 with h2 | h2 | h2
        · exact absurd h2 (by simp)
        · left
          rw [hbT, Option.some.inj h2]
        · right
          rw [hbT, Option.some.inj h2]
    · rw [if_neg hpc]
      exact h

/-- Whole interleavings preserve the race invariant. -/
theorem raceRun_inv {SA SB : Finset Int} {qA qB : Int} :
    ∀ (moves : List Move) (s : RaceState), raceInv SA SB qA qB s →
      raceInv SA SB qA qB (raceRun SA SB qA qB moves s) := by
  intro moves
  induction moves with
  | nil => exact fun s h => h
  | cons m ms ih => exact fun s h => ih _ (raceStep_inv h m)

/-- The initial state satisfies the race invariant. -/
theorem raceInit_inv (SA SB : Finset Int) (qA qB : Int) :
    raceInv SA SB qA qB raceInit :=
  ⟨Or.inl rfl, fun _ hb => Option.noConfusion hb, fun _ hb => Option.noConfusion hb⟩

instance (q : Int) (lines : List String) :
    Decidable (appearsAsStandaloneLine q lines) := by
  unfold appearsAsStandaloneLine
  infer_instance

instance (q : Int) (lines : List String) :
    Decidable (appearsAsWholeLine q lines) := by
  unfold appearsAsWholeLine
  infer_instance

/-- When the payload splits into exactly two fields, decoding reduces to
parsing the first field. -/
theorem decode_eq_of_split {data : String} {a b : List Char}
    (hsp : splitOnComma data.data = [a, b]) :
    decode_user_input data =
      match pyIntChars (pyStripList a) with
      | some n => .ok ⟨n, String.mk (pyStripList b)⟩
      | none => .error .valueParseError := by
  unfold decode_user_input
  rw [hsp]

/-- C1 (counterexample to the claim as stated): a reread-off lookup
issued before any load has ever populated the shared handle does NOT
fail. With `data_store = None`, the session answers the query `5,off`
with the ordinary not-found response; the no-data diagnostic text of the
`except TypeError` branch is never sent. -/
theorem c1_counterexample :
    handle_client none none ["5,off"] =
      (["STRING NOT FOUND\n READ_ON_QUERY=False"], none) ∧
    "STRING NOT FOUND\n READ_ON_QUERY=False" ≠
      "Please switch to READ_ON_QUERY=True, no data found in memory" := by
  decide

/-- C1 (amended): for every query that decodes successfully and selects
reread-off, a lookup issued before any load has populated the shared
handle returns normally with the not-found response: the `and` guard at
`big_int_search.py` line 136 short-circuits on the falsy `None`, no
error is raised, and the session sends this plain response instead of
the no-data diagnostic. -/
theorem c1_reread_off_before_load_amended :
    ∀ (fs : Option (List String)) (input : String) (d : DecodedInput),
      decode_user_input input = .ok d → pyLower d.reread_mode ≠ "true" →
      processRequest fs none input =
        .ok ("STRING NOT FOUND\n READ_ON_QUERY=False", none) ∧
      handle_client fs none [input] =
        (["STRING NOT FOUND\n READ_ON_QUERY=False"], none) := by
  intro fs input d hd hm
  have hoff := search_off_none hd
  have hpr : processRequest fs none input =
      .ok ("STRING NOT FOUND\n READ_ON_QUERY=False", none) := by
    rw [processRequest_eq hd, if_neg hm]
    unfold runRereadOff
    rw [hoff]
  refine ⟨hpr, ?_⟩
  simp [handle_client, hpr]

/-- C1 (witness): the amended theorem instantiated at the query `5,off`
issued before any load. -/
theorem c1_witness :
    processRequest none none "5,off" =
      .ok ("STRING NOT FOUND\n READ_ON_QUERY=False", none) ∧
    handle_client none none ["5,off"] =
      (["STRING NOT FOUND\n READ_ON_QUERY=False"], none) :=
  c1_reread_off_before_load_amended none "5,off" ⟨5, "off"⟩ (by decide) (by decide)

/-- C2 (counterexample to the claim as stated): `"123, on"` decodes to
the trimmed mode field `"on"`, but the dispatch at `tcp_server.py` line
122 compares `lower()` against the literal `"true"` only, so `"on"`
selects reread-OFF: the answer carries `READ_ON_QUERY=False`. -/
theorem c2_counterexample :
    decode_user_input "123, on" = .ok ⟨123, "on"⟩ ∧
    processRequest none (some {123}) "123, on" =
      .ok ("STRING EXISTS\n READ_ON_QUERY=False", some {123}) := by
  decide

/-- C2 (amended): for every payload that decodes successfully, reread-on
mode is selected exactly when the trimmed second field equals the literal
`"true"` case-insensitively; any other second field — including `"on"` —
selects reread-off. -/
theorem c2_mode_selection_amended :
    ∀ (fs : Option (List String)) (store : Option (Finset Int))
      (input : String) (d : DecodedInput),
      decode_user_input input = .ok d →
      processRequest fs store input =
        (if pyLower d.reread_mode = "true" then search_data_reread_on input fs
         else runRereadOff input store) ∧
      pyLower "TRUE" = "true" ∧ pyLower "on" ≠ "true" :=
  fun _ _ _ _ hd => ⟨processRequest_eq hd, by decide, by decide⟩

/-- C2 (witness): the amended theorem instantiated at `"123, on"`. -/
theorem c2_witness :
    processRequest none (some ({123} : Finset Int)) "123, on" =
      (if pyLower "on" = "true" then search_data_reread_on "123, on" none
       else runRereadOff "123, on" (some {123})) ∧
    pyLower "TRUE" = "true" ∧ pyLower "on" ≠ "true" :=
  c2_mode_selection_amended none (some {123}) "123, on" ⟨123, "on"⟩ (by decide)

/-- C3 (counterexample to the claim as stated): two requests arrive on
one connection and the first (`"1,2,3"`) fails decoding. The session
sends the fixed diagnostic and the connection is then closed — the
`except ValueError` clause at `tcp_server.py` line 138 sits OUTSIDE the
`while` loop — so the second, well-formed request receives no response:
the session did not return to awaiting the next request. -/
theorem c3_counterexample :
    handle_client (some ["5"]) none ["1,2,3", "5,false"] =
      (["The search input must be a number or integer"], none) := by
  decide

/-- C3 (amended): on a FormatError or ValueParseError the session
responds with the fixed diagnostic message and then terminates: no
further request on that connection is processed. The failure is confined
to that session (each connection runs its own `handle_client`), but the
session itself closes rather than returning to await the next request. -/
theorem c3_decode_error_closes_session :
    ∀ (fs : Option (List String)) (store : Option (Finset Int))
      (data : String) (rest : List String) (e : SearchError),
      processRequest fs store data = .error e → isValueError e = true →
      handle_client fs store (data :: rest) =
        (["The search input must be a number or integer"], store) := by
  intro fs store data rest e h he
  cases e
  case formatError => simp [handle_client, h]
  case valueParseError => simp [handle_client, h]
  case parseError => simp [handle_client, h]
  case fileAccessError => exact absurd he (by decide)
  case typeError => exact absurd he (by decide)

/-- C3 (witness): the amended theorem instantiated at a malformed first
request followed by a well-formed one. -/
theorem c3_witness :
    handle_client (some ["5"]) none ["1,2,3", "77,false"] =
      (["The search input must be a number or integer"], none) :=
  c3_decode_error_closes_session (some ["5"]) none "1,2,3" ["77,false"]
    .formatError (by decide) (by decide)

/-- C4 (counterexample to the claim as stated): the loader removes every
semicolon, so the file `["1;2", "12;34"]` loads as `{12, 1234}` and a
reread-off query for 12 answers STRING EXISTS — yet 12 occurs in that
file only as a substring of the line `"12;34"` and is not equal to any
whole line (under the spec's whitespace-and-trailing-separator
normalization no line is the integer 12), a partial-match false positive
the claim rules out. -/
theorem c4_counterexample :
    loadLines ["1;2", "12;34"] = .ok ({12, 1234} : Finset Int) ∧
    search_data_reread_off "12,off" (some ({12, 1234} : Finset Int)) =
      .ok "STRING EXISTS\n READ_ON_QUERY=False" ∧
    listContains (toString (12 : Int)).data "12;34".data = true ∧
    ¬ appearsAsWholeLine 12 ["1;2", "12;34"] := by
  decide

/-- C4 (amended): after a successful load of the reference file into the
shared store, a reread-off lookup answers EXISTS exactly for the
integers that appear as a standalone line of the loaded file under the
LOADER's normalization (some non-blank line, after whitespace stripping
and removal of every semicolon, parses to that integer), NOT FOUND
exactly otherwise; a value that occurs only as a substring of some line
and is not the normalized parse of any line answers NOT FOUND — but a
line with an interior semicolon makes its semicolon-stripped value
answer EXISTS even though that value appears on no whole line. -/
theorem c4_reread_off_membership :
    ∀ (lines : List String) (input : String) (d : DecodedInput) (S : Finset Int),
      decode_user_input input = .ok d → loadLines lines = .ok S →
      ((search_data_reread_off input (some S) =
          .ok "STRING EXISTS\n READ_ON_QUERY=False" ↔
            appearsAsStandaloneLine d.query_input lines) ∧
       (search_data_reread_off input (some S) =
          .ok "STRING NOT FOUND\n READ_ON_QUERY=False" ↔
            ¬ appearsAsStandaloneLine d.query_input lines) ∧
       ((∃ l ∈ lines, listContains (toString d.query_input).data l.data = true) →
          ¬ appearsAsStandaloneLine d.query_input lines →
          search_data_reread_off input (some S) =
            .ok "STRING NOT FOUND\n READ_ON_QUERY=False")) := by
  intro lines input d S hd hS
  have hmem := mem_loadLines lines S hS d.query_input
  have hoff := search_off_some S hd
  refine ⟨?_, ?_, ?_⟩
  · rw [hoff]
    by_cases hq : d.query_input ∈ S
    · rw [if_pos hq]
      exact iff_of_true rfl (hmem.mp hq)
    · rw [if_neg hq]
      exact iff_of_false (by decide) (fun ha => hq (hmem.mpr ha))
  · rw [hoff]
    by_cases hq : d.query_input ∈ S
    · rw [if_pos hq]
      exact iff_of_false (by decide) (fun hna => hna (hmem.mp hq))
    · rw [if_neg hq]
      exact iff_of_true rfl (fun ha => hq (hmem.mpr ha))
  · intro _ hna
    rw [hoff, if_neg (fun hq => hna (hmem.mp hq))]

/-- C4 (witness): with the loaded file `["123"]`, the query value 23
occurs as a substring of the line `"123"` but not as a whole line, and a
reread-off lookup answers NOT FOUND. -/
theorem c4_witness :
    search_data_reread_off "23,off" (some ({123} : Finset Int)) =
      .ok "STRING NOT FOUND\n READ_ON_QUERY=False" ∧
    listContains (toString (23 : Int)).data "123".data = true :=
  ⟨(c4_reread_off_membership ["123"] "23,off" ⟨23, "off"⟩ {123}
      (by decide) (by decide)).2.2 (by decide) (by decide), by decide⟩

/-- C5 (counterexample to the claim as stated): a successful lookup
response does not end with a newline — the single newline terminates the
status line and the response ends with the `READ_ON_QUERY` field. -/
theorem c5_counterexample :
    processRequest (some ["5"]) none "5,true" =
      .ok ("STRING EXISTS\n READ_ON_QUERY=True", some ({5} : Finset Int)) ∧
    lastChar "STRING EXISTS\n READ_ON_QUERY=True" ≠ some '\n' := by
  decide

/-- C5 (amended): every successful lookup response is exactly one of the
four literals `<STRING EXISTS|STRING NOT FOUND>` + newline +
` READ_ON_QUERY=<True|False>`, whose boolean equals the reread mode
selected for that query; the response contains exactly one newline,
which terminates the status line — the response does NOT end with it. -/
theorem c5_response_format_amended :
    ∀ (fs : Option (List String)) (store st : Option (Finset Int))
      (input r : String),
      processRequest fs store input = .ok (r, st) →
      ∃ d, decode_user_input input = .ok d ∧
        ((pyLower d.reread_mode = "true" ∧
            (r = "STRING EXISTS\n READ_ON_QUERY=True" ∨
             r = "STRING NOT FOUND\n READ_ON_QUERY=True")) ∨
         (pyLower d.reread_mode ≠ "true" ∧
            (r = "STRING EXISTS\n READ_ON_QUERY=False" ∨
             r = "STRING NOT FOUND\n READ_ON_QUERY=False"))) ∧
        r.data.count '\n' = 1 ∧ lastChar r ≠ some '\n' := by
  intro fs store st input r h
  unfold processRequest at h
  split at h
  · split at h
    · exact Except.noConfusion h
    · rename_i d hd
      by_cases hm : pyLower d.reread_mode = "true"
      · rw [if_pos hm] at h
        rcases search_on_ok_shape h with rfl | rfl
        · exact ⟨d, hd, Or.inl ⟨hm, Or.inl rfl⟩, by decide, by decide⟩
        · exact ⟨d, hd, Or.inl ⟨hm, Or.inr rfl⟩, by decide, by decide⟩
      · rw [if_neg hm] at h
        have hse : search_data_reread_off input store = .ok r := by
          unfold runRereadOff at h
          split at h
          · rename_i r0 h0
            have h2 := Except.ok.inj h
            injection h2 with h21 h22
            exact h21 ▸ h0
          · exact Except.noConfusion h
        rcases search_off_ok_shape hse with rfl | rfl
        · exact ⟨d, hd, Or.inr ⟨hm, Or.inl rfl⟩, by decide, by decide⟩
        · exact ⟨d, hd, Or.inr ⟨hm, Or.inr rfl⟩, by decide, by decide⟩
  · exact Except.noConfusion h

/-- C5 (witness): the amended theorem instantiated at a reread-on hit. -/
theorem c5_witness :
    ∃ d, decode_user_input "5,true" = .ok d ∧
      ((pyLower d.reread_mode = "true" ∧
          ("STRING EXISTS\n READ_ON_QUERY=True" = "STRING EXISTS\n READ_ON_QUERY=True" ∨
           "STRING EXISTS\n READ_ON_QUERY=True" = "STRING NOT FOUND\n READ_ON_QUERY=True")) ∨
       (pyLower d.reread_mode ≠ "true" ∧
          ("STRING EXISTS\n READ_ON_QUERY=True" = "STRING EXISTS\n READ_ON_QUERY=False" ∨
           "STRING EXISTS\n READ_ON_QUERY=True" = "STRING NOT FOUND\n READ_ON_QUERY=False"))) ∧
      ("STRING EXISTS\n READ_ON_QUERY=True").data.count '\n' = 1 ∧
      lastChar "STRING EXISTS\n READ_ON_QUERY=True" ≠ some '\n' :=
  c5_response_format_amended (some ["5"]) none (some {5}) "5,true"
    "STRING EXISTS\n READ_ON_QUERY=True" (by decide)

/-- C6: trailing NUL padding is NOT stripped before decoding. Python
`str.strip()` does not remove `'\x00'`, so the padded payload
`"123,true\x00"` decodes to the mode field `"true\x00"`, which fails the
`== "true"` test at `tcp_server.py` line 122 and selects reread-off —
while the identical payload without the padding selects reread-on. The
same request with and without the padding thus decodes differently and
produces different responses, contradicting the claim (and the stated
requirement 6 of `tests.py`, whose docstring says the server strips
`\x00` characters from the end of the payload). -/
theorem c6_nul_padding_eval :
    decode_user_input "123,true" = .ok ⟨123, "true"⟩ ∧
    decode_user_input "123,true\x00" = .ok ⟨123, "true\x00"⟩ ∧
    ("true\x00" : String) ≠ "true" ∧
    processRequest (some ["123"]) none "123,true" =
      .ok ("STRING EXISTS\n READ_ON_QUERY=True", some {123}) ∧
    processRequest (some ["123"]) none "123,true\x00" =
      .ok ("STRING NOT FOUND\n READ_ON_QUERY=False", none) := by
  decide

/-- C7: decoding fails with a FormatError exactly when splitting the
payload on commas does not yield exactly two fields; with exactly two
fields it fails with a ValueParseError exactly when the trimmed first
field does not parse as an integer, and otherwise succeeds with the
parsed integer and the trimmed second field; in particular `"1,2,3"`
fails with FormatError and `"abc,on"` with ValueParseError. -/
theorem c7_decode_errors :
    (∀ data : String,
      (decode_user_input data = .error .formatError ↔
        (splitOnComma data.data).length ≠ 2) ∧
      (∀ a b, splitOnComma data.data = [a, b] →
        (pyIntChars (pyStripList a) = none →
          decode_user_input data = .error .valueParseError) ∧
        (∀ n, pyIntChars (pyStripList a) = some n →
          decode_user_input data = .ok ⟨n, String.mk (pyStripList b)⟩))) ∧
    decode_user_input "1,2,3" = .error .formatError ∧
    decode_user_input "abc,on" = .error .valueParseError := by
  refine ⟨?_, by decide, by decide⟩
  intro data
  constructor
  · constructor
    · intro hfe hlen
      obtain ⟨a, b, hsp⟩ := List.length_eq_two.mp hlen
      rw [decode_eq_of_split hsp] at hfe
      cases hpi : pyIntChars (pyStripList a) with
      | some n => rw [hpi] at hfe; exact Except.noConfusion hfe
      | none => rw [hpi] at hfe; exact absurd (Except.error.inj hfe) (by decide)
    · intro hlen
      unfold decode_user_input
      split
      · rename_i a b hsp
        refine absurd ?_ hlen
        rw [hsp]
        rfl
      · rfl
  · intro a b hsp
    constructor
    · intro hnone
      rw [decode_eq_of_split hsp, hnone]
    · intro n hn
      rw [decode_eq_of_split hsp, hn]

/-- C7 (witness): the characterization instantiated at concrete payloads
of each kind. -/
theorem c7_witness :
    decode_user_input "abc,on" = .error .valueParseError ∧
    decode_user_input " 42 , on " = .ok ⟨42, "on"⟩ ∧
    decode_user_input "x" = .error .formatError :=
  ⟨((c7_decode_errors.1 "abc,on").2 "abc".data "on".data (by decide)).1 (by decide),
   (((c7_decode_errors.1 " 42 , on ").2 " 42 ".data " on ".data (by decide)).2 42 (by decide)),
   (c7_decode_errors.1 "x").1.mpr (by decide)⟩

/-- C8 (counterexample to the claim as stated): the loader removes EVERY
semicolon, not only decorative trailing ones. The line `"1;2"` carries no
trailing separator, so after trailing-separator stripping it is not a
valid integer and the claim demands a parse error — but the code also
strips the interior semicolon and successfully loads the set `{12}`. -/
theorem c8_counterexample :
    load_data (some ["1;2"]) = .ok ({12} : Finset Int) ∧
    pyIntChars (stripTrailingSeparators (pyStripList "1;2".data)) = none := by
  decide

/-- C8 (amended): a load produces the set containing, for each non-blank
line, the integer parsed from that line after stripping surrounding
whitespace and removing every semicolon occurrence (not only trailing
ones); blank lines contribute nothing; the load fails with a file-access
error when the path is missing and with a parse error when some
non-blank line is not a valid integer after semicolon removal. -/
theorem c8_load_data_amended :
    load_data none = .error .fileAccessError ∧
    ∀ lines : List String,
      ((∃ l ∈ lines, pyStripList l.data ≠ [] ∧ parseLine l = none) →
        load_data (some lines) = .error .parseError) ∧
      ((∀ l ∈ lines, pyStripList l.data ≠ [] → parseLine l ≠ none) →
        ∃ S, load_data (some lines) = .ok S ∧
          ∀ q : Int, q ∈ S ↔ appearsAsStandaloneLine q lines) := by
  refine ⟨rfl, fun lines => ⟨fun h => loadLines_error h, fun h => ?_⟩⟩
  obtain ⟨S, hS⟩ := loadLines_ok h
  exact ⟨S, hS, mem_loadLines lines S hS⟩

/-- C8 (witness): the amended theorem instantiated at a file with a bad
line, and at a file with a decorated line, a blank line and a plain line. -/
theorem c8_witness :
    load_data (some ["abc", "1"]) = .error .parseError ∧
    ∃ S, load_data (some [" 10; ", "", "7"]) = .ok S ∧
      ∀ q : Int, q ∈ S ↔ appearsAsStandaloneLine q [" 10; ", "", "7"] :=
  ⟨(c8_load_data_amended.2 ["abc", "1"]).1 (by decide),
   (c8_load_data_amended.2 [" 10; ", "", "7"]).2 (by decide)⟩

/-- C9 (counterexample to the claim as stated): under the interleaving
publish-A, publish-B, test-A, test-B of two concurrent reread-on queries
(session A loaded `{1}` and queries 1, session B loaded `∅` and queries
0), line 111 re-reads the shared class attribute, which B has meanwhile
overwritten: A answers `false` although its own freshly loaded set
contains its query. -/
theorem c9_counterexample :
    (raceRun {1} ∅ 1 0 [Move.pubA, Move.pubB, Move.testA, Move.testB] raceInit).ansA =
      some false ∧
    (1 : Int) ∈ ({1} : Finset Int) := by
  decide

/-- C9 (amended): in every interleaving of two concurrent reread-on
queries, each query's answer is membership of its query in the set
residing in the shared handle at the moment of its membership test —
always one of the two fully-built loaded sets (never a torn value), but
possibly the set published by the other query rather than the one this
query itself loaded. -/
theorem c9_concurrent_reread_amended :
    ∀ (SA SB : Finset Int) (qA qB : Int) (moves : List Move),
      (∀ b, (raceRun SA SB qA qB moves raceInit).ansA = some b →
        b = decide (qA ∈ SA) ∨ b = decide (qA ∈ SB)) ∧
      (∀ b, (raceRun SA SB qA qB moves raceInit).ansB = some b →
        b = decide (qB ∈ SA) ∨ b = decide (qB ∈ SB)) := by
  intro SA SB qA qB moves
  have h := raceRun_inv moves raceInit (raceInit_inv SA SB qA qB)
  exact ⟨h.2.1, h.2.2⟩

/-- C9 (witness): the amended theorem applied at the counterexample
interleaving, discharging its hypothesis there. -/
theorem c9_witness :
    false = decide ((1 : Int) ∈ ({1} : Finset Int)) ∨
    false = decide ((1 : Int) ∈ (∅ : Finset Int)) :=
  (c9_concurrent_reread_amended {1} ∅ 1 0
    [Move.pubA, Move.pubB, Move.testA, Move.testB]).1 false (by decide)

/-- C10: for every state of the shared store (never loaded, loaded but
empty, or populated) and every successfully decoding input selecting
reread-off, `search_data_reread_off` returns normally with one of the
two lookup responses and never raises; consequently the session
handler's reread-off path yields an ordinary response and the
`except TypeError` no-data diagnostic branch is unreachable through it. -/
theorem c10_reread_off_total :
    ∀ (fs : Option (List String)) (store : Option (Finset Int))
      (input : String) (d : DecodedInput),
      decode_user_input input = .ok d → pyLower d.reread_mode ≠ "true" →
      ∃ r, search_data_reread_off input store = .ok r ∧
        (r = "STRING EXISTS\n READ_ON_QUERY=False" ∨
         r = "STRING NOT FOUND\n READ_ON_QUERY=False") ∧
        processRequest fs store input = .ok (r, store) := by
  intro fs store input d hd hm
  have hpe := @processRequest_eq fs store input d hd
  rw [if_neg hm] at hpe
  cases store with
  | none =>
    refine ⟨_, search_off_none hd, Or.inr rfl, ?_⟩
    rw [hpe]
    unfold runRereadOff
    rw [search_off_none hd]
  | some S =>
    refine ⟨_, search_off_some S hd, ?_, ?_⟩
    · by_cases hq : d.query_input ∈ S
      · rw [if_pos hq]
        exact Or.inl rfl
      · rw [if_neg hq]
        exact Or.inr rfl
    · rw [hpe]
      unfold runRereadOff
      rw [search_off_some S hd]

/-- C10 (witness): the theorem instantiated at a populated store and a
reread-off miss. -/
theorem c10_witness :
    ∃ r, search_data_reread_off "9,off" (some ({5} : Finset Int)) = .ok r ∧
      (r = "STRING EXISTS\n READ_ON_QUERY=False" ∨
       r = "STRING NOT FOUND\n READ_ON_QUERY=False") ∧
      processRequest none (some {5}) "9,off" = .ok (r, some {5}) :=
  c10_reread_off_total none (some {5}) "9,off" ⟨9, "off"⟩ (by decide) (by decide)
